import Mathlib

/-!
Verification of the bias-scoring engine of the `bias-news-extension` backend.

The definitions below are a shallow embedding of the Python code in
`backend/improved_bias_analyzer.py` (class `ImprovedBiasAnalyzer`) and of the
field accesses its caller `backend/app.py` performs.  Text is modelled as a
list of characters, Python `float` arithmetic on small ratios of integer
counts is modelled exactly with `ℚ`, a Python `dict` built in insertion
order is modelled as an association list, and the external NLTK tokenizer /
stopword corpus (library code that can raise at runtime) is modelled as
`Except`-valued parameters; the `try/except` in `_analyze_moral_foundations`
becomes a `match` on that `Except` value.
-/

namespace BiasNews

/-- Text is a list of characters (a Python `str`). -/
abbrev Str := List Char

/-- Python regex word character (`\w`), restricted to the ASCII range that the
lexicon terms and lowercased article text use: letters, digits, underscore. -/
def isWordChar (c : Char) : Bool := c.isAlphanum || c == '_'

/-- A `\b` word boundary holds before a term starting with a word character
when the preceding character (if any) is not a word character. -/
def prevBoundaryOk : Option Char → Bool
  | none => true
  | some c => !isWordChar c

/-- A `\b` word boundary holds after a term ending in a word character when
the following character (if any) is not a word character. -/
def nextBoundaryOk : Str → Bool
  | [] => true
  | c :: _ => !isWordChar c

/-- One step of `re.findall(r'\b' + re.escape(term) + r'\b', text)`:
left-to-right scan counting non-overlapping whole-word/whole-phrase
occurrences.  `prev` is the character just before the current position and
`fuel` bounds the scan (it is supplied as `text.length + 1`, enough because
every step consumes at least one character of a nonempty term or of the
text). -/
def countTermGo (term : Str) : Nat → Option Char → Str → Nat
  | 0, _, _ => 0
  | fuel + 1, prev, text =>
    if term.isPrefixOf text && prevBoundaryOk prev && nextBoundaryOk (text.drop term.length) then
      countTermGo term fuel term.getLast? (text.drop term.length) + 1
    else
      match text with
      | [] => 0
      | c :: rest => countTermGo term fuel (some c) rest

/-- `len(re.findall(r'\b' + re.escape(term) + r'\b', text))` for a term whose
first and last characters are word characters (true of every lexicon term). -/
def countTerm (term : Str) (text : Str) : Nat :=
  countTermGo term (text.length + 1) none text

/-- The inner loop of `_count_lexicon_terms`: `count += len(re.findall(...))`
over a category's term list (the list is not deduplicated). -/
def countLexiconCategory (terms : List String) (text : Str) : Nat :=
  (terms.map (fun t => countTerm t.data text)).sum

/-- One step of `re.findall(pattern, text)` for a framing pattern expanded
into its list of literal alternatives (no word-boundary anchors): leftmost
non-overlapping matching, alternatives tried in order at each position. -/
def countPatternGo (alts : List Str) : Nat → Str → Nat
  | 0, _ => 0
  | fuel + 1, text =>
    match alts.find? (fun a => a.isPrefixOf text) with
    | some a => countPatternGo alts fuel (text.drop a.length) + 1
    | none =>
      match text with
      | [] => 0
      | _ :: rest => countPatternGo alts fuel rest

/-- `len(re.findall(pattern, text))` for an alternation-expanded framing
pattern. -/
def countPattern (alts : List String) (text : Str) : Nat :=
  countPatternGo (alts.map String.data) (text.length + 1) text

/-- Python `str.strip()`: drop whitespace from both ends. -/
def stripChars (text : Str) : Str :=
  ((text.dropWhile Char.isWhitespace).reverse.dropWhile Char.isWhitespace).reverse

/-- Python `str.strip()` on a Lean `String`. -/
def stripString (s : String) : String := String.mk (stripChars s.data)

/-- Python `str.lower()` on a Lean `String` (ASCII labels only). -/
def lowerString (s : String) : String := String.mk (s.data.map Char.toLower)

/-- Python `category.replace('_', ' ')` (single-character replacement). -/
def replaceUnderscore (s : String) : String :=
  String.mk (s.data.map (fun c => if c == '_' then ' ' else c))

/-- Python `str.split()`: split on whitespace runs, dropping empty pieces.
`acc` holds the characters of the current word in reverse. -/
def splitWsGo : Str → Str → List Str
  | [], acc => if acc.isEmpty then [] else [acc.reverse]
  | c :: rest, acc =>
    if c.isWhitespace then
      if acc.isEmpty then splitWsGo rest [] else acc.reverse :: splitWsGo rest []
    else
      splitWsGo rest (c :: acc)

/-- Python `str.split()` with no arguments. -/
def splitWhitespace (text : Str) : List Str := splitWsGo text []

/-- `dict.get(key, 0)` on an insertion-ordered counts dictionary. -/
def getCount (m : List (String × Nat)) (key : String) : Nat :=
  (m.lookup key).getD 0

/-- The fallback stopword list of `MinimalStopwords.words`
(improved_bias_analyzer.py lines 35-41), used when NLTK is unavailable. -/
def minimalStopwords : List String :=
  ["a", "an", "the", "and", "or", "but", "if", "then", "else", "when",
   "at", "from", "by", "for", "with", "about", "against", "between",
   "into", "through", "during", "before", "after", "above", "below",
   "to", "of", "in", "on", "is", "are", "was", "were", "be", "been",
   "being", "have", "has", "had", "having", "do", "does", "did",
   "doing", "this", "that", "these", "those", "would", "should", "could",
   "i", "you", "he", "she", "it", "we", "they", "what", "which", "who"]

/-- The moral-foundations lexicon `self.moral_foundations`
(improved_bias_analyzer.py lines 76-83), in source order. -/
def moralFoundations : List (String × List String) :=
  [("care", ["harm", "care", "protect", "compassion", "empathy"]),
   ("fairness", ["fair", "equal", "justice", "rights", "equity"]),
   ("loyalty", ["loyal", "solidarity", "patriot", "betray", "treason"]),
   ("authority", ["authority", "tradition", "respect", "obey", "order"]),
   ("sanctity", ["purity", "sacred", "disgust", "sin", "degradation"]),
   ("liberty", ["freedom", "liberty", "oppress", "tyranny", "restrict"])]

/-- The framing patterns `self.framing_patterns`
(improved_bias_analyzer.py lines 52-73), each regex expanded into the finite
list of its literal alternatives in the order the regex engine tries them. -/
def framingPatterns : List (String × List (List String)) :=
  [("left_frames",
    [["economic inequality"],
     ["systemic racism", "systemic discrimination"],
     ["human rights", "civil rights"],
     ["undocumented immigrants", "unauthorized immigrants"],
     ["climate crisis", "climate emergency"],
     ["worker rights", "labor rights"],
     ["affordable healthcare", "universal healthcare"],
     ["corporate greed"]]),
   ("right_frames",
    [["free market"],
     ["personal responsibility"],
     ["illegal aliens", "undocumented aliens"],
     ["family values"],
     ["job creators"],
     ["government overreach"],
     ["religious freedom", "religious liberty"],
     ["law and order"]])]

/-- `_analyze_framing`: lowercase the text and count every framing pattern of
each polarity, summing per polarity (the `results[frame_type] += len(matches)`
loop). -/
def analyzeFraming (text : Str) : List (String × Nat) :=
  let lowered := text.map Char.toLower
  framingPatterns.map (fun p => (p.1, (p.2.map (fun alts => countPattern alts lowered)).sum))

/-- The `try` body of `_analyze_moral_foundations` up to the raw counts:
lowercase, tokenize, remove stopwords, and count per-foundation exact token
membership (`sum(1 for token in tokens if token in terms)`).  The tokenizer
and stopword source are the external NLTK resources (or their fallbacks),
modelled as `Except`-valued parameters because either can raise. -/
def moralRawCounts (tokenize : Str → Except String (List Str))
    (getStopwords : Except String (List Str)) (text : Str) :
    Except String (List (String × Nat)) := do
  let lowered := text.map Char.toLower
  let tokens ← tokenize lowered
  let sw ← getStopwords
  let tokens := tokens.filter (fun t => !sw.contains t)
  pure (moralFoundations.map (fun p =>
    (p.1, (tokens.filter (fun tok => (p.2.map String.data).contains tok)).length)))

/-- `_analyze_moral_foundations`: normalize the raw counts to proportions when
their sum is positive; the `except` branch returns zero for every
foundation. -/
def analyzeMoralFoundations (tokenize : Str → Except String (List Str))
    (getStopwords : Except String (List Str)) (text : Str) : List (String × ℚ) :=
  match moralRawCounts tokenize getStopwords text with
  | .error _ => moralFoundations.map (fun p => (p.1, (0 : ℚ)))
  | .ok results =>
    let total := (results.map Prod.snd).sum
    if 0 < total then
      results.map (fun p => (p.1, (p.2 : ℚ) / (total : ℚ)))
    else
      results.map (fun p => (p.1, (p.2 : ℚ)))

/-- The NLTK-unavailable fallback tokenizer: `text.split()`, which cannot
fail. -/
def fallbackTokenize : Str → Except String (List Str) :=
  fun text => .ok (splitWhitespace text)

/-- The NLTK-unavailable fallback stopword source:
`set(stopwords.words())` over the built-in minimal list. -/
def fallbackStopwords : Except String (List Str) :=
  .ok (minimalStopwords.map String.data)

/-- Axis term list `economy_left` (improved_bias_analyzer.py `_load_lexicons`). -/
def economy_left : List String := [
  "regulation", "inequality", "living wage", "worker protection",
  "economic justice", "wealth tax", "social safety net", "public investment",
  "minimum wage", "labor unions", "worker rights", "corporate greed",
  "wealth redistribution", "progressive tax", "public services", "economic fairness",
  "worker solidarity", "corporate accountability", "economic democracy", "public ownership",
  "social welfare", "economic inequality", "wealth gap", "corporate welfare",
  "economic reform", "worker empowerment", "fair wages", "economic justice",
  "public infrastructure", "social programs"]

/-- Axis term list `economy_right` (improved_bias_analyzer.py `_load_lexicons`). -/
def economy_right : List String := [
  "deregulation", "free market", "tax cut", "fiscal responsibility",
  "job creator", "economic freedom", "private sector", "trickle-down",
  "small government", "fiscal conservatism", "market forces", "economic growth",
  "business friendly", "entrepreneurship", "private enterprise", "free enterprise",
  "economic liberty", "market competition", "fiscal restraint", "business regulation",
  "economic opportunity", "job growth", "market efficiency", "economic prosperity",
  "private investment", "business climate", "economic stability", "market solutions",
  "fiscal discipline"]

/-- Axis term list `social_left` (improved_bias_analyzer.py `_load_lexicons`). -/
def social_left : List String := [
  "reproductive rights", "LGBTQ+ rights", "racial justice", "diversity",
  "inclusion", "marginalized communities", "systemic racism", "police reform",
  "social justice", "civil rights", "gender equality", "social equity",
  "racial equality", "social progress", "human rights", "social change",
  "community empowerment", "social inclusion", "racial equity", "gender equity",
  "social reform", "civil liberties", "social equality", "community justice",
  "social empowerment", "racial progress", "gender justice", "social transformation",
  "civil rights movement"]

/-- Axis term list `social_right` (improved_bias_analyzer.py `_load_lexicons`). -/
def social_right : List String := [
  "traditional values", "family values", "religious freedom", "law and order",
  "western civilization", "patriotism", "moral decay", "unborn",
  "cultural heritage", "family structure", "moral values", "social stability",
  "traditional marriage", "cultural preservation", "national identity", "moral standards",
  "social order", "cultural values", "family tradition", "moral principles",
  "social cohesion", "cultural identity", "national pride", "moral foundation",
  "social harmony", "cultural tradition", "family values", "moral compass",
  "social fabric", "cultural heritage"]

/-- Axis term list `healthcare_left` (improved_bias_analyzer.py `_load_lexicons`). -/
def healthcare_left : List String := [
  "universal healthcare", "single-payer", "affordable care act", "medicare for all",
  "public option", "healthcare equity", "prescription drug prices", "mental health care",
  "healthcare access", "healthcare reform", "public health", "healthcare justice",
  "healthcare rights", "healthcare equality", "healthcare affordability", "healthcare coverage",
  "healthcare system", "healthcare policy", "healthcare support", "healthcare assistance",
  "healthcare benefits", "healthcare protection", "healthcare security", "healthcare provision",
  "healthcare services", "healthcare resources", "healthcare programs", "healthcare funding",
  "healthcare investment", "healthcare infrastructure"]

/-- Axis term list `healthcare_right` (improved_bias_analyzer.py `_load_lexicons`). -/
def healthcare_right : List String := [
  "market-based healthcare", "health savings accounts", "private insurance", "personal responsibility",
  "choice in healthcare", "individual mandate", "rationing", "healthcare choice",
  "private healthcare", "healthcare freedom", "healthcare competition", "healthcare innovation",
  "healthcare efficiency", "healthcare quality", "healthcare options", "healthcare market",
  "healthcare consumer", "healthcare provider", "healthcare cost", "healthcare reform",
  "healthcare system", "healthcare policy", "healthcare access", "healthcare coverage",
  "healthcare benefits", "healthcare services", "healthcare resources", "healthcare programs",
  "healthcare funding", "healthcare investment", "healthcare infrastructure"]

/-- Axis term list `environment_left` (improved_bias_analyzer.py `_load_lexicons`). -/
def environment_left : List String := [
  "climate crisis", "green new deal", "renewable energy", "environmental justice",
  "carbon tax", "sustainability", "pollution control", "conservation",
  "climate action", "environmental protection", "clean energy", "climate change",
  "environmental policy", "green technology", "climate policy", "environmental regulation",
  "renewable resources", "climate solutions", "environmental impact", "green initiatives",
  "climate adaptation", "environmental awareness", "sustainable development", "climate mitigation",
  "environmental conservation", "green economy", "climate resilience", "environmental stewardship",
  "sustainable future"]

/-- Axis term list `environment_right` (improved_bias_analyzer.py `_load_lexicons`). -/
def environment_right : List String := [
  "environmental overregulation", "clean coal", "energy independence", "job-killing regulations",
  "climate alarmism", "property rights", "nuclear power", "energy security",
  "environmental balance", "economic growth", "energy development", "environmental management",
  "resource utilization", "energy production", "environmental stewardship", "economic prosperity",
  "energy innovation", "environmental science", "resource conservation", "energy efficiency",
  "environmental policy", "economic opportunity", "energy technology", "environmental protection",
  "resource management", "energy infrastructure", "environmental regulation", "economic development"]

/-- Axis term list `immigration_left` (improved_bias_analyzer.py `_load_lexicons`). -/
def immigration_left : List String := [
  "pathway to citizenship", "dreamers", "asylum seekers", "family reunification",
  "undocumented immigrants", "immigration reform", "sanctuary cities", "immigration rights",
  "refugee protection", "immigration justice", "immigration policy", "refugee rights",
  "immigration support", "immigration assistance", "refugee assistance", "immigration services",
  "immigration protection", "refugee support", "immigration resources", "immigration programs",
  "refugee programs", "immigration benefits", "immigration rights", "refugee rights",
  "immigration support", "immigration assistance", "refugee assistance", "immigration services"]

/-- Axis term list `immigration_right` (improved_bias_analyzer.py `_load_lexicons`). -/
def immigration_right : List String := [
  "border security", "illegal immigration", "merit-based immigration", "chain migration",
  "illegal aliens", "amnesty", "vetting", "deportation",
  "immigration control", "border protection", "immigration enforcement", "immigration policy",
  "border security", "immigration regulation", "immigration law", "border control",
  "immigration security", "immigration system", "border enforcement", "immigration rules",
  "immigration standards", "border management", "immigration requirements", "immigration process",
  "border patrol", "immigration screening", "immigration verification", "border control",
  "immigration checks"]

/-- Axis term list `foreign_left` (improved_bias_analyzer.py `_load_lexicons`). -/
def foreign_left : List String := [
  "diplomacy", "international cooperation", "human rights", "foreign aid",
  "peacekeeping", "multilateral", "united nations", "soft power",
  "international relations", "global cooperation", "peace diplomacy", "international law",
  "global governance", "peace building", "international aid", "global partnership",
  "peace initiatives", "international support", "global development", "peace process",
  "international engagement", "global security", "peace negotiations", "international dialogue",
  "global stability", "peace efforts", "international collaboration", "global peace",
  "peace resolution"]

/-- Axis term list `foreign_right` (improved_bias_analyzer.py `_load_lexicons`). -/
def foreign_right : List String := [
  "strong military", "america first", "national security", "defense spending",
  "sovereignty", "strength", "terrorism", "interventionism",
  "isolationism", "military strength", "national defense", "security policy",
  "military power", "national interest", "security measures", "military capability",
  "national sovereignty", "security strategy", "military readiness", "national protection",
  "security forces", "military presence", "national security", "security operations",
  "military defense", "national strength", "security systems", "military force",
  "national power", "security framework"]

/-- Axis term list `education_left` (improved_bias_analyzer.py `_load_lexicons`). -/
def education_left : List String := [
  "public education", "education equity", "student rights", "education funding",
  "public schools", "education access", "student support", "education resources",
  "education reform", "student success", "education programs", "education policy",
  "student achievement", "education services", "education support", "student development",
  "education opportunities", "education system", "student learning", "education quality",
  "education rights", "student welfare", "education benefits", "education assistance",
  "student assistance", "education programs", "education investment", "student support",
  "education development"]

/-- Axis term list `education_right` (improved_bias_analyzer.py `_load_lexicons`). -/
def education_right : List String := [
  "school choice", "education freedom", "parental rights", "education standards",
  "private education", "education quality", "parental control", "education excellence",
  "education reform", "student achievement", "parental involvement", "education policy",
  "student success", "parental choice", "education system", "student learning",
  "parental authority", "education standards", "student development", "parental responsibility",
  "education quality", "student performance", "parental guidance", "education accountability",
  "student progress", "parental influence", "education innovation", "student growth",
  "parental engagement"]

/-- Axis term list `criminal_justice_left` (improved_bias_analyzer.py `_load_lexicons`). -/
def criminal_justice_left : List String := [
  "criminal justice reform", "police accountability", "prison reform", "restorative justice",
  "criminal justice system", "police oversight", "prison rehabilitation", "justice reform",
  "police transparency", "prison alternatives", "criminal justice policy", "police training",
  "prison conditions", "justice system", "police reform", "prison population",
  "criminal justice change", "police practices", "prison programs", "justice initiatives",
  "police community", "prison services", "criminal justice progress", "police relations",
  "prison resources", "justice programs", "police accountability", "prison support",
  "criminal justice rights", "police oversight"]

/-- Axis term list `criminal_justice_right` (improved_bias_analyzer.py `_load_lexicons`). -/
def criminal_justice_right : List String := [
  "law and order", "tough on crime", "police support", "criminal justice",
  "public safety", "crime prevention", "police protection", "justice system",
  "crime control", "law enforcement", "police authority", "criminal law",
  "public security", "crime reduction", "police power", "legal system",
  "crime deterrence", "law compliance", "police force", "criminal code",
  "public order", "crime fighting", "police presence", "legal framework",
  "crime prevention", "law maintenance", "police service", "criminal justice",
  "public protection", "crime control", "police action", "legal authority"]

/-- Axis term list `technology_left` (improved_bias_analyzer.py `_load_lexicons`). -/
def technology_left : List String := [
  "digital privacy", "net neutrality", "tech regulation", "data protection",
  "digital rights", "internet freedom", "tech accountability", "privacy rights",
  "digital access", "tech innovation", "data security", "privacy protection",
  "digital inclusion", "tech development", "data privacy", "privacy laws",
  "digital equity", "tech progress", "data rights", "privacy standards",
  "digital literacy", "tech advancement", "data control", "privacy framework",
  "digital rights", "tech growth", "data protection", "privacy measures",
  "digital access", "tech evolution", "data security", "privacy safeguards"]

/-- Axis term list `technology_right` (improved_bias_analyzer.py `_load_lexicons`). -/
def technology_right : List String := [
  "tech innovation", "digital freedom", "market competition", "tech growth",
  "digital enterprise", "tech development", "market forces", "tech advancement",
  "digital progress", "tech industry", "market opportunity", "tech evolution",
  "digital future", "tech leadership", "market innovation", "tech progress",
  "digital economy", "tech sector", "market development", "tech expansion",
  "digital transformation", "tech capability", "market potential", "tech potential",
  "digital opportunity", "tech capacity", "market growth", "tech growth",
  "digital innovation", "tech advancement", "market expansion", "tech development"]

/-- The full topical lexicon table returned by `_load_lexicons`, in source
(insertion) order. -/
def lexicons : List (String × List String) :=
  [("economy_left", economy_left), ("economy_right", economy_right),
   ("social_left", social_left), ("social_right", social_right),
   ("healthcare_left", healthcare_left), ("healthcare_right", healthcare_right),
   ("environment_left", environment_left), ("environment_right", environment_right),
   ("immigration_left", immigration_left), ("immigration_right", immigration_right),
   ("foreign_left", foreign_left), ("foreign_right", foreign_right),
   ("education_left", education_left), ("education_right", education_right),
   ("criminal_justice_left", criminal_justice_left), ("criminal_justice_right", criminal_justice_right),
   ("technology_left", technology_left), ("technology_right", technology_right)]

/-- `_count_lexicon_terms(text, self.lexicons)`: lowercase the text once and
produce one count per axis key. -/
def countLexiconTerms (text : Str) : List (String × Nat) :=
  let lowered := text.map Char.toLower
  lexicons.map (fun p => (p.1, countLexiconCategory p.2 lowered))

/-- The `categories` dictionary of `analyze` (lines 436-446):
`(name, left_key, right_key)` triples in source order. -/
def categories : List (String × String × String) :=
  [("economic", "economy_left", "economy_right"),
   ("social", "social_left", "social_right"),
   ("environmental", "environment_left", "environment_right"),
   ("healthcare", "healthcare_left", "healthcare_right"),
   ("immigration", "immigration_left", "immigration_right"),
   ("foreign", "foreign_left", "foreign_right"),
   ("education", "education_left", "education_right"),
   ("criminal_justice", "criminal_justice_left", "criminal_justice_right"),
   ("technology", "technology_left", "technology_right")]

/-- A per-category `topic_bias` entry (lines 463-467). -/
structure TopicBias where
  score : ℚ
  left_terms : Nat
  right_terms : Nat
deriving Repr, DecidableEq

/-- The `topic_bias` dictionary built by the category loop of `analyze`
(lines 454-467), over an arbitrary category table: an entry is recorded
exactly when `left_count + right_count > 0`. -/
def topicAux (cats : List (String × String × String)) (lex : List (String × Nat)) :
    List (String × TopicBias) :=
  cats.filterMap (fun c =>
    let L := getCount lex c.2.1
    let R := getCount lex c.2.2
    if 0 < L + R then
      some (c.1, { score := ((R : ℚ) - (L : ℚ)) / ((L : ℚ) + (R : ℚ)),
                   left_terms := L, right_terms := R })
    else none)

/-- The `topic_bias` dictionary for the engine's own category table. -/
def topicBiasList (lex : List (String × Nat)) : List (String × TopicBias) :=
  topicAux categories lex

/-- `total_left` contribution of the category loop (before framing is added):
the sum of all left-axis lexicon counts. -/
def totalLeftLex (lex : List (String × Nat)) : Nat :=
  (categories.map (fun c => getCount lex c.2.1)).sum

/-- `total_right` contribution of the category loop (before framing is
added): the sum of all right-axis lexicon counts. -/
def totalRightLex (lex : List (String × Nat)) : Nat :=
  (categories.map (fun c => getCount lex c.2.2)).sum

/-- The `bias_category` if/elif chain of `analyze` (lines 487-501). -/
def biasCategory (bias_score : ℚ) : String :=
  if bias_score < -(3/5 : ℚ) then "Strongly Left-leaning"
  else if bias_score < -(3/10 : ℚ) then "Moderately Left-leaning"
  else if bias_score < -(1/10 : ℚ) then "Slightly Left-leaning"
  else if bias_score ≤ (1/10 : ℚ) then "Neutral"
  else if bias_score ≤ (3/10 : ℚ) then "Slightly Right-leaning"
  else if bias_score ≤ (3/5 : ℚ) then "Moderately Right-leaning"
  else "Strongly Right-leaning"

/-- Python `max(moral_profile, key=moral_profile.get)` together with the
value it selects: the first key of maximal value in iteration order
(`none` exactly on the empty dictionary). -/
def maxByValue : List (String × ℚ) → Option (String × ℚ)
  | [] => none
  | p :: rest =>
    match maxByValue rest with
    | none => some p
    | some q => if q.2 > p.2 then some q else some p

/-- The leaning label of a significant topic (line 517):
`"right-leaning" if data["score"] > 0 else "left-leaning"`. -/
def leaning (tb : TopicBias) : String :=
  if 0 < tb.score then "right-leaning" else "left-leaning"

/-- The `significant_topics` clause list of `analyze` (lines 514-518): one
clause per topic with more than 2 total hits, in `topic_bias` order. -/
def significantTopics (topic_bias : List (String × TopicBias)) : List String :=
  (topic_bias.filter (fun p => 2 < p.2.left_terms + p.2.right_terms)).map
    (fun p => replaceUnderscore p.1 ++ " is " ++ leaning p.2)

/-- The explanation assembly of `analyze` (lines 510-532), before the final
`strip()`. -/
def buildExplanation (bias_category : String) (topic_bias : List (String × TopicBias))
    (moral_profile : List (String × ℚ)) (confidence : ℚ) : String :=
  let explanation := "This content appears to be " ++ lowerString bias_category ++ ", "
  let explanation :=
    if significantTopics topic_bias ≠ [] then
      explanation ++ ("with " ++ String.intercalate ", " (significantTopics topic_bias) ++ ". ")
    else explanation
  let explanation :=
    match maxByValue moral_profile with
    | some kv =>
      if (3/10 : ℚ) < kv.2 then
        explanation ++ ("The content emphasizes the moral foundation of " ++ kv.1 ++ ". ")
      else explanation
    | none => explanation
  if confidence < (1/2 : ℚ) then
    explanation ++ "Note that this analysis has low confidence due to limited political indicators in the text."
  else explanation

/-- Python built-in `min` on two floats (returns the first argument on
ties). -/
def pymin (a b : ℚ) : ℚ := if a ≤ b then a else b

/-- Python built-in `max` on two floats (returns the second argument only
when it is strictly larger). -/
def pymax (a b : ℚ) : ℚ := if b ≤ a then a else b

/-- The dictionary returned by `analyze` on the non-short path
(lines 534-541). -/
structure FullResult where
  bias_score : ℚ
  confidence : ℚ
  interpretation : String
  topic_analysis : List (String × TopicBias)
  moral_foundations : List (String × ℚ)
  explanation : String

/-- The two shapes of dictionary `analyze` can return: the short-text
three-key dictionary (lines 420-424) or the full six-key result. -/
inductive AnalyzeResult where
  | short (bias_score : ℚ) (confidence : ℚ) (explanation : String)
  | full (r : FullResult)

/-- The short-circuit condition of `analyze` (line 419):
`not text or len(text.strip()) < 50`. -/
def isShortText (text : Str) : Prop :=
  text = [] ∨ (stripChars text).length < 50

instance (text : Str) : Decidable (isShortText text) := by
  unfold isShortText; infer_instance

/-- The non-short branch of `analyze` (lines 426-541). -/
def analyzeFull (tokenize : Str → Except String (List Str))
    (getStopwords : Except String (List Str)) (text : Str) : FullResult :=
  let lexicon_results := countLexiconTerms text
  let framing_results := analyzeFraming text
  let moral_results := analyzeMoralFoundations tokenize getStopwords text
  let total_left := totalLeftLex lexicon_results + getCount framing_results "left_frames"
  let total_right := totalRightLex lexicon_results + getCount framing_results "right_frames"
  let topic_bias := topicBiasList lexicon_results
  let total_terms := total_left + total_right
  let bias_score : ℚ :=
    if 0 < total_terms then ((total_right : ℚ) - (total_left : ℚ)) / (total_terms : ℚ) else 0
  let confidence : ℚ := pymin (9/10) (pymax (3/10) (pymin ((total_terms : ℚ) / 20) (9/10)))
  let bias_category := biasCategory bias_score
  let total_moral := (moral_results.map Prod.snd).sum
  let moral_profile :=
    if 0 < total_moral then moral_results.map (fun p => (p.1, p.2 / total_moral)) else []
  { bias_score := bias_score,
    confidence := confidence,
    interpretation := bias_category,
    topic_analysis := topic_bias,
    moral_foundations := moral_profile,
    explanation := stripString (buildExplanation bias_category topic_bias moral_profile confidence) }

/-- `ImprovedBiasAnalyzer.analyze` (lines 415-541). -/
def analyze (tokenize : Str → Except String (List Str))
    (getStopwords : Except String (List Str)) (text : Str) : AnalyzeResult :=
  if isShortText text then
    .short 0 (1/10) "Text is too short for reliable analysis."
  else
    .full (analyzeFull tokenize getStopwords text)

/-- The keys of the returned Python dictionary, in literal order
(lines 420-424 for the short path, lines 534-541 for the full path). -/
def resultKeys : AnalyzeResult → List String
  | .short _ _ _ => ["bias_score", "confidence", "explanation"]
  | .full _ =>
    ["bias_score", "confidence", "interpretation", "topic_analysis",
     "moral_foundations", "explanation"]

/-- The caller's field access `bias_analysis["interpretation"]`
(app.py line 60): `none` models the `KeyError` a missing key raises. -/
def getInterpretation : AnalyzeResult → Option String
  | .short _ _ _ => none
  | .full r => some r.interpretation

/-! **Shared lemmas about the pipeline** -/

theorem analyze_eq_full (tokenize : Str → Except String (List Str))
    (getStopwords : Except String (List Str)) (text : Str) (h : ¬ isShortText text) :
    analyze tokenize getStopwords text = .full (analyzeFull tokenize getStopwords text) := by
  unfold analyze
  exact if_neg h

set_option maxHeartbeats 2000000 in
theorem analyzeFull_bias_score (tokenize : Str → Except String (List Str))
    (getStopwords : Except String (List Str)) (text : Str) :
    (analyzeFull tokenize getStopwords text).bias_score =
      (let total_left := totalLeftLex (countLexiconTerms text) +
          getCount (analyzeFraming text) "left_frames"
       let total_right := totalRightLex (countLexiconTerms text) +
          getCount (analyzeFraming text) "right_frames"
       if 0 < total_left + total_right then
         ((total_right : ℚ) - (total_left : ℚ)) / ((total_left + total_right : ℕ) : ℚ)
       else 0) := rfl

set_option maxHeartbeats 2000000 in
theorem analyzeFull_confidence (tokenize : Str → Except String (List Str))
    (getStopwords : Except String (List Str)) (text : Str) :
    (analyzeFull tokenize getStopwords text).confidence =
      (let total_left := totalLeftLex (countLexiconTerms text) +
          getCount (analyzeFraming text) "left_frames"
       let total_right := totalRightLex (countLexiconTerms text) +
          getCount (analyzeFraming text) "right_frames"
       pymin (9/10) (pymax (3/10) (pymin (((total_left + total_right : ℕ) : ℚ) / 20) (9/10)))) := rfl

theorem pymin_eq_min (a b : ℚ) : pymin a b = min a b := by
  unfold pymin
  split_ifs with h
  · exact (min_eq_left h).symm
  · exact (min_eq_right (le_of_not_le h)).symm

theorem pymax_eq_max (a b : ℚ) : pymax a b = max a b := by
  unfold pymax
  split_ifs with h
  · exact (max_eq_left h).symm
  · exact (max_eq_right (le_of_not_le h)).symm

set_option maxHeartbeats 2000000 in
theorem analyzeFull_interpretation (tokenize : Str → Except String (List Str))
    (getStopwords : Except String (List Str)) (text : Str) :
    (analyzeFull tokenize getStopwords text).interpretation =
      biasCategory (analyzeFull tokenize getStopwords text).bias_score := rfl

set_option maxHeartbeats 2000000 in
theorem analyzeFull_topic_analysis (tokenize : Str → Except String (List Str))
    (getStopwords : Except String (List Str)) (text : Str) :
    (analyzeFull tokenize getStopwords text).topic_analysis =
      topicBiasList (countLexiconTerms text) := by
  unfold analyzeFull
  with_reducible rfl

set_option maxHeartbeats 2000000 in
theorem analyzeFull_moral_foundations (tokenize : Str → Except String (List Str))
    (getStopwords : Except String (List Str)) (text : Str) :
    (analyzeFull tokenize getStopwords text).moral_foundations =
      (if 0 < ((analyzeMoralFoundations tokenize getStopwords text).map Prod.snd).sum then
        (analyzeMoralFoundations tokenize getStopwords text).map
          (fun p => (p.1,
            p.2 / ((analyzeMoralFoundations tokenize getStopwords text).map Prod.snd).sum))
      else []) := rfl

set_option maxHeartbeats 2000000 in
theorem analyzeFull_explanation (tokenize : Str → Except String (List Str))
    (getStopwords : Except String (List Str)) (text : Str) :
    (analyzeFull tokenize getStopwords text).explanation =
      stripString (buildExplanation
        (analyzeFull tokenize getStopwords text).interpretation
        (analyzeFull tokenize getStopwords text).topic_analysis
        (analyzeFull tokenize getStopwords text).moral_foundations
        (analyzeFull tokenize getStopwords text).confidence) := by
  conv_lhs => unfold analyzeFull
  conv_rhs => unfold analyzeFull

theorem ratio_in_unit_interval (L R : ℕ) (h : 0 < L + R) :
    -1 ≤ ((R : ℚ) - (L : ℚ)) / ((L : ℚ) + (R : ℚ)) ∧
      ((R : ℚ) - (L : ℚ)) / ((L : ℚ) + (R : ℚ)) ≤ 1 := by
  have hpos : (0 : ℚ) < (L : ℚ) + (R : ℚ) := by exact_mod_cast h
  constructor
  · rw [le_div_iff₀ hpos]
    have hL : (0 : ℚ) ≤ (L : ℚ) := Nat.cast_nonneg L
    linarith
  · rw [div_le_one hpos]
    have hR : (0 : ℚ) ≤ (R : ℚ) := Nat.cast_nonneg R
    linarith

/-! **Claims** -/

/-- C2: on empty input or input whose stripped length is below 50 characters,
`analyze` short-circuits to the fixed three-key dictionary with
`bias_score = 0`, `confidence = 0.1` and the fixed explanation string, and no
`topic_analysis` or `moral_foundations` field exists on this path (none of the
counting, framing or moral-profiling steps is reached — in particular the
result does not depend on the tokenizer or stopword resources at all). -/
theorem claim_C2_short_text_result (tokenize : Str → Except String (List Str))
    (getStopwords : Except String (List Str)) (text : Str) (h : isShortText text) :
    analyze tokenize getStopwords text =
      .short 0 (1/10) "Text is too short for reliable analysis." ∧
    resultKeys (analyze tokenize getStopwords text) =
      ["bias_score", "confidence", "explanation"] ∧
    "topic_analysis" ∉ resultKeys (analyze tokenize getStopwords text) ∧
    "moral_foundations" ∉ resultKeys (analyze tokenize getStopwords text) ∧
    (∀ (tok2 : Str → Except String (List Str)) (stop2 : Except String (List Str)),
      analyze tok2 stop2 text = analyze tokenize getStopwords text) := by
  have he : ∀ (tok2 : Str → Except String (List Str)) (stop2 : Except String (List Str)),
      analyze tok2 stop2 text =
        .short 0 (1/10) "Text is too short for reliable analysis." := by
    intro tok2 stop2
    unfold analyze
    exact if_pos h
  refine ⟨he tokenize getStopwords, ?_, ?_, ?_, ?_⟩
  · rw [he tokenize getStopwords]
    rfl
  · rw [he tokenize getStopwords]
    decide
  · rw [he tokenize getStopwords]
    decide
  · intro tok2 stop2
    rw [he tok2 stop2, he tokenize getStopwords]

/-- Witness for C2 at the concrete two-character input `"hi"`. -/
theorem claim_C2_witness :
    analyze fallbackTokenize fallbackStopwords "hi".data =
      .short 0 (1/10) "Text is too short for reliable analysis." :=
  (claim_C2_short_text_result fallbackTokenize fallbackStopwords "hi".data (by decide)).1

/-- C3: the interpretation label is produced by the ordered half-open
boundary ladder `< -0.6`, `< -0.3`, `< -0.1`, `≤ 0.1`, `≤ 0.3`, `≤ 0.6`,
else Strongly Right-leaning; in particular a `bias_score` of exactly `-0.1`
is labelled Neutral, not Slightly Left-leaning. -/
theorem claim_C3_interpretation_ladder (q : ℚ) :
    (q < -(3/5) → biasCategory q = "Strongly Left-leaning") ∧
    (-(3/5) ≤ q → q < -(3/10) → biasCategory q = "Moderately Left-leaning") ∧
    (-(3/10) ≤ q → q < -(1/10) → biasCategory q = "Slightly Left-leaning") ∧
    (-(1/10) ≤ q → q ≤ 1/10 → biasCategory q = "Neutral") ∧
    (1/10 < q → q ≤ 3/10 → biasCategory q = "Slightly Right-leaning") ∧
    (3/10 < q → q ≤ 3/5 → biasCategory q = "Moderately Right-leaning") ∧
    (3/5 < q → biasCategory q = "Strongly Right-leaning") ∧
    biasCategory (-(1/10)) = "Neutral" ∧
    biasCategory (-(1/10)) ≠ "Slightly Left-leaning" := by
  refine ⟨?_, ?_, ?_, ?_, ?_, ?_, ?_, by norm_num [biasCategory],
    by norm_num [biasCategory]; decide⟩
  · intro h1
    unfold biasCategory
    rw [if_pos h1]
  · intro h1 h2
    unfold biasCategory
    rw [if_neg (by linarith), if_pos h2]
  · intro h1 h2
    unfold biasCategory
    rw [if_neg (by linarith), if_neg (by linarith), if_pos h2]
  · intro h1 h2
    unfold biasCategory
    rw [if_neg (by linarith), if_neg (by linarith), if_neg (by linarith), if_pos h2]
  · intro h1 h2
    unfold biasCategory
    rw [if_neg (by linarith), if_neg (by linarith), if_neg (by linarith),
      if_neg (by linarith), if_pos h2]
  · intro h1 h2
    unfold biasCategory
    rw [if_neg (by linarith), if_neg (by linarith), if_neg (by linarith),
      if_neg (by linarith), if_neg (by linarith), if_pos h2]
  · intro h1
    unfold biasCategory
    rw [if_neg (by linarith), if_neg (by linarith), if_neg (by linarith),
      if_neg (by linarith), if_neg (by linarith), if_neg (by linarith)]

/-- Witness for C3 at the concrete score `-1/2`. -/
theorem claim_C3_witness : biasCategory (-(1/2)) = "Moderately Left-leaning" :=
  (claim_C3_interpretation_ladder (-(1/2))).2.1 (by norm_num) (by norm_num)

/-- C9: on the short-text path the returned dictionary has exactly the keys
`bias_score`, `confidence`, `explanation` — no `interpretation` key — while
every full result carries an `interpretation` key, so the caller's
unconditional read `bias_analysis["interpretation"]` (app.py line 60) finds
nothing on short input. -/
theorem claim_C9_short_result_keys (tokenize : Str → Except String (List Str))
    (getStopwords : Except String (List Str)) (text : Str) (h : isShortText text) :
    resultKeys (analyze tokenize getStopwords text) =
      ["bias_score", "confidence", "explanation"] ∧
    "interpretation" ∉ resultKeys (analyze tokenize getStopwords text) ∧
    getInterpretation (analyze tokenize getStopwords text) = none ∧
    (∀ (tok2 : Str → Except String (List Str)) (stop2 : Except String (List Str))
       (text2 : Str), ¬ isShortText text2 →
        "interpretation" ∈ resultKeys (analyze tok2 stop2 text2) ∧
        getInterpretation (analyze tok2 stop2 text2) =
          some (analyzeFull tok2 stop2 text2).interpretation) := by
  have he : analyze tokenize getStopwords text =
      .short 0 (1/10) "Text is too short for reliable analysis." := by
    unfold analyze
    exact if_pos h
  refine ⟨by rw [he]; rfl, by rw [he]; decide, by rw [he]; rfl, ?_⟩
  intro tok2 stop2 text2 h2
  rw [analyze_eq_full tok2 stop2 text2 h2]
  refine ⟨?_, rfl⟩
  show "interpretation" ∈
    ["bias_score", "confidence", "interpretation", "topic_analysis",
     "moral_foundations", "explanation"]
  decide

/-- Witness for C9 at the concrete input `"hi"`. -/
theorem claim_C9_witness :
    getInterpretation (analyze fallbackTokenize fallbackStopwords "hi".data) = none :=
  (claim_C9_short_result_keys fallbackTokenize fallbackStopwords "hi".data (by decide)).2.2.1

theorem topicAux_key_mem (cats : List (String × String × String))
    (lex : List (String × Nat)) (p : String × TopicBias) (hp : p ∈ topicAux cats lex) :
    p.1 ∈ cats.map (fun c => c.1) := by
  unfold topicAux at hp
  rw [List.mem_filterMap] at hp
  obtain ⟨c, hc, hfc⟩ := hp
  dsimp only at hfc
  split_ifs at hfc with hcond
  injection hfc with hpc
  subst hpc
  exact List.mem_map_of_mem _ hc

/-- C1: past the short-text check, `total_left` is the sum of the nine
left-axis lexicon counts plus `left_frames`, `total_right` the sum of the
nine right-axis lexicon counts plus `right_frames`, the overall `bias_score`
is `(total_right - total_left) / (total_left + total_right)` when the total
is positive and `0` otherwise, it always lies in `[-1, 1]`, and the framing
counts never contribute an entry of their own to `topic_analysis` (every
entry key is one of the nine category names). -/
theorem claim_C1_bias_aggregation (tokenize : Str → Except String (List Str))
    (getStopwords : Except String (List Str)) (text : Str) (h : ¬ isShortText text) :
    ∃ r : FullResult, analyze tokenize getStopwords text = .full r ∧
      (let total_left := totalLeftLex (countLexiconTerms text) +
          getCount (analyzeFraming text) "left_frames"
       let total_right := totalRightLex (countLexiconTerms text) +
          getCount (analyzeFraming text) "right_frames"
       r.bias_score =
         if 0 < total_left + total_right then
           ((total_right : ℚ) - (total_left : ℚ)) / ((total_left : ℚ) + (total_right : ℚ))
         else 0) ∧
      -1 ≤ r.bias_score ∧ r.bias_score ≤ 1 ∧
      ∀ p ∈ r.topic_analysis, p.1 ∈ categories.map (fun c => c.1) := by
  refine ⟨analyzeFull tokenize getStopwords text,
    analyze_eq_full tokenize getStopwords text h, ?_, ?_, ?_, ?_⟩
  · rw [analyzeFull_bias_score]
    push_cast
    rfl
  · rw [analyzeFull_bias_score]
    dsimp only
    split_ifs with hpos
    · have hb := (ratio_in_unit_interval _ _ hpos).1
      push_cast
      push_cast at hb
      exact hb
    · norm_num
  · rw [analyzeFull_bias_score]
    dsimp only
    split_ifs with hpos
    · have hb := (ratio_in_unit_interval _ _ hpos).2
      push_cast
      push_cast at hb
      exact hb
    · norm_num
  · intro p hp
    rw [analyzeFull_topic_analysis] at hp
    exact topicAux_key_mem categories (countLexiconTerms text) p hp

/-- Witness for C1 at a concrete 52-character input. -/
theorem claim_C1_witness :
    ∃ r : FullResult,
      analyze fallbackTokenize fallbackStopwords
        "the writer talked at length about nothing in detail.".data = .full r ∧
      (let total_left := totalLeftLex (countLexiconTerms
          "the writer talked at length about nothing in detail.".data) +
          getCount (analyzeFraming
            "the writer talked at length about nothing in detail.".data) "left_frames"
       let total_right := totalRightLex (countLexiconTerms
          "the writer talked at length about nothing in detail.".data) +
          getCount (analyzeFraming
            "the writer talked at length about nothing in detail.".data) "right_frames"
       r.bias_score =
         if 0 < total_left + total_right then
           ((total_right : ℚ) - (total_left : ℚ)) / ((total_left : ℚ) + (total_right : ℚ))
         else 0) ∧
      -1 ≤ r.bias_score ∧ r.bias_score ≤ 1 ∧
      ∀ p ∈ r.topic_analysis, p.1 ∈ categories.map (fun c => c.1) :=
  claim_C1_bias_aggregation fallbackTokenize fallbackStopwords
    "the writer talked at length about nothing in detail.".data (by decide)

/-- C5: past the short-text check, `confidence` is exactly
`min(0.9, max(0.3, min(total_terms / 20, 0.9)))`, hence always in
`[0.3, 0.9]`, and it is exactly `0.3` when `total_terms = 0`. -/
theorem claim_C5_confidence_clamp (tokenize : Str → Except String (List Str))
    (getStopwords : Except String (List Str)) (text : Str) (h : ¬ isShortText text) :
    ∃ r : FullResult, analyze tokenize getStopwords text = .full r ∧
      (let total_terms := (totalLeftLex (countLexiconTerms text) +
          getCount (analyzeFraming text) "left_frames") +
          (totalRightLex (countLexiconTerms text) +
            getCount (analyzeFraming text) "right_frames")
       r.confidence = min (9/10) (max (3/10) (min ((total_terms : ℚ) / 20) (9/10))) ∧
       (total_terms = 0 → r.confidence = 3/10)) ∧
      (3/10 : ℚ) ≤ r.confidence ∧ r.confidence ≤ 9/10 := by
  refine ⟨analyzeFull tokenize getStopwords text,
    analyze_eq_full tokenize getStopwords text h, ⟨?_, ?_⟩, ?_, ?_⟩
  · rw [analyzeFull_confidence]
    simp only [pymin_eq_min, pymax_eq_max]
  · intro h0
    rw [analyzeFull_confidence]
    dsimp only
    rw [h0]
    norm_num [pymin, pymax]
  · rw [analyzeFull_confidence]
    dsimp only
    simp only [pymin_eq_min, pymax_eq_max]
    exact le_min (by norm_num) (le_max_left _ _)
  · rw [analyzeFull_confidence]
    dsimp only
    simp only [pymin_eq_min, pymax_eq_max]
    exact min_le_left _ _

/-- Witness for C5 at a concrete 52-character input. -/
theorem claim_C5_witness :
    ∃ r : FullResult,
      analyze fallbackTokenize fallbackStopwords
        "a quiet report described the weather and local events".data = .full r ∧
      (let total_terms := (totalLeftLex (countLexiconTerms
          "a quiet report described the weather and local events".data) +
          getCount (analyzeFraming
            "a quiet report described the weather and local events".data) "left_frames") +
          (totalRightLex (countLexiconTerms
            "a quiet report described the weather and local events".data) +
            getCount (analyzeFraming
              "a quiet report described the weather and local events".data) "right_frames")
       r.confidence = min (9/10) (max (3/10) (min ((total_terms : ℚ) / 20) (9/10))) ∧
       (total_terms = 0 → r.confidence = 3/10)) ∧
      (3/10 : ℚ) ≤ r.confidence ∧ r.confidence ≤ 9/10 :=
  claim_C5_confidence_clamp fallbackTokenize fallbackStopwords
    "a quiet report described the weather and local events".data (by decide)

theorem topicAux_lookup_not_mem (cats : List (String × String × String))
    (lex : List (String × Nat)) (cat : String)
    (h : cat ∉ cats.map (fun c => c.1)) :
    (topicAux cats lex).lookup cat = none := by
  induction cats with
  | nil => rfl
  | cons c rest ih =>
    simp only [List.map_cons, List.mem_cons, not_or] at h
    obtain ⟨h1, h2⟩ := h
    unfold topicAux
    rw [List.filterMap_cons]
    dsimp only
    by_cases hcond : 0 < getCount lex c.2.1 + getCount lex c.2.2
    · rw [if_pos hcond]
      dsimp only
      rw [List.lookup_cons]
      rw [show (cat == c.1) = false from beq_eq_false_iff_ne.mpr h1]
      exact ih h2
    · rw [if_neg hcond]
      exact ih h2

theorem topicAux_lookup_mem (cats : List (String × String × String))
    (lex : List (String × Nat)) (cat lk rk : String)
    (hnd : (cats.map (fun c => c.1)).Nodup) (hm : (cat, lk, rk) ∈ cats) :
    (topicAux cats lex).lookup cat =
      (if 0 < getCount lex lk + getCount lex rk then
        some { score := ((getCount lex rk : ℚ) - (getCount lex lk : ℚ)) /
                 ((getCount lex lk : ℚ) + (getCount lex rk : ℚ)),
               left_terms := getCount lex lk, right_terms := getCount lex rk }
      else none) := by
  induction cats with
  | nil => cases hm
  | cons c rest ih =>
    rw [List.map_cons, List.nodup_cons] at hnd
    obtain ⟨hnotin, hndrest⟩ := hnd
    rcases List.mem_cons.mp hm with heq | hmem
    · subst heq
      dsimp only at hnotin
      unfold topicAux
      rw [List.filterMap_cons]
      dsimp only
      by_cases hcond : 0 < getCount lex lk + getCount lex rk
      · rw [if_pos hcond]
        dsimp only
        rw [List.lookup_cons]
        rw [show (cat == cat) = true from beq_self_eq_true cat]
        dsimp only
        rw [if_pos hcond]
      · rw [if_neg hcond, if_neg hcond]
        exact topicAux_lookup_not_mem rest lex cat hnotin
    · have hkey : cat ∈ rest.map (fun c => c.1) := by
        have hmm := List.mem_map_of_mem (fun c => c.1) hmem
        exact hmm
      have hne : cat ≠ c.1 := fun hcc => hnotin (hcc ▸ hkey)
      unfold topicAux
      rw [List.filterMap_cons]
      dsimp only
      by_cases hcond : 0 < getCount lex c.2.1 + getCount lex c.2.2
      · rw [if_pos hcond]
        dsimp only
        rw [List.lookup_cons]
        rw [show (cat == c.1) = false from beq_eq_false_iff_ne.mpr hne]
        exact ih hndrest hmem
      · rw [if_neg hcond]
        exact ih hndrest hmem

/-- C4: past the short-text check, each topical axis has a `topic_analysis`
entry exactly when its left count plus right count is positive, and the
entry then carries `score = (R - L) / (L + R)` exactly, `left_terms = L`,
`right_terms = R`, with the score in `[-1, 1]`. -/
theorem claim_C4_topic_entries (tokenize : Str → Except String (List Str))
    (getStopwords : Except String (List Str)) (text : Str) (h : ¬ isShortText text) :
    ∃ r : FullResult, analyze tokenize getStopwords text = .full r ∧
      ∀ cat lk rk, (cat, lk, rk) ∈ categories →
        (let L := getCount (countLexiconTerms text) lk
         let R := getCount (countLexiconTerms text) rk
         ((r.topic_analysis.lookup cat).isSome ↔ 0 < L + R) ∧
         ∀ tb : TopicBias, r.topic_analysis.lookup cat = some tb →
           tb.score = ((R : ℚ) - (L : ℚ)) / ((L : ℚ) + (R : ℚ)) ∧
           tb.left_terms = L ∧ tb.right_terms = R ∧
           -1 ≤ tb.score ∧ tb.score ≤ 1) := by
  refine ⟨analyzeFull tokenize getStopwords text,
    analyze_eq_full tokenize getStopwords text h, ?_⟩
  intro cat lk rk hm
  have hnd : (categories.map (fun c => c.1)).Nodup := by decide
  have hlk := topicAux_lookup_mem categories (countLexiconTerms text) cat lk rk hnd hm
  rw [analyzeFull_topic_analysis]
  dsimp only
  constructor
  · rw [topicBiasList, hlk]
    by_cases hcond : 0 < getCount (countLexiconTerms text) lk +
        getCount (countLexiconTerms text) rk
    · simp [hcond]
    · simp [hcond]
  · intro tb htb
    rw [topicBiasList, hlk] at htb
    by_cases hcond : 0 < getCount (countLexiconTerms text) lk +
        getCount (countLexiconTerms text) rk
    · rw [if_pos hcond] at htb
      injection htb with htb
      subst htb
      have hb := ratio_in_unit_interval (getCount (countLexiconTerms text) lk)
        (getCount (countLexiconTerms text) rk) hcond
      exact ⟨rfl, rfl, rfl, hb.1, hb.2⟩
    · rw [if_neg hcond] at htb
      exact Option.noConfusion htb

/-- Witness for C4 at a concrete 56-character input. -/
theorem claim_C4_witness :
    ∃ r : FullResult,
      analyze fallbackTokenize fallbackStopwords
        "several people walked slowly through the quiet town today".data = .full r ∧
      ∀ cat lk rk, (cat, lk, rk) ∈ categories →
        (let L := getCount (countLexiconTerms
            "several people walked slowly through the quiet town today".data) lk
         let R := getCount (countLexiconTerms
            "several people walked slowly through the quiet town today".data) rk
         ((r.topic_analysis.lookup cat).isSome ↔ 0 < L + R) ∧
         ∀ tb : TopicBias, r.topic_analysis.lookup cat = some tb →
           tb.score = ((R : ℚ) - (L : ℚ)) / ((L : ℚ) + (R : ℚ)) ∧
           tb.left_terms = L ∧ tb.right_terms = R ∧
           -1 ≤ tb.score ∧ tb.score ≤ 1) :=
  claim_C4_topic_entries fallbackTokenize fallbackStopwords
    "several people walked slowly through the quiet town today".data (by decide)

theorem map_snd_pair (counts : List (String × ℕ)) (f : String × ℕ → ℚ) :
    (counts.map (fun p => (p.1, f p))).map Prod.snd = counts.map f := by
  rw [List.map_map]
  rfl

theorem sum_snd_div (counts : List (String × ℕ)) (d : ℚ) :
    (counts.map (fun p => ((p.2 : ℚ) / d))).sum = ((counts.map Prod.snd).sum : ℚ) / d := by
  induction counts with
  | nil => simp
  | cons a l ih =>
    simp only [List.map_cons, List.sum_cons, ih]
    push_cast
    ring

theorem sum_cast_snd (counts : List (String × ℕ)) :
    (counts.map (fun p => ((p.2 : ℚ)))).sum = ((counts.map Prod.snd).sum : ℚ) := by
  induction counts with
  | nil => simp
  | cons a l ih =>
    simp only [List.map_cons, List.sum_cons, ih]
    push_cast
    ring

theorem moral_foundations_empty_of_zero (tokenize : Str → Except String (List Str))
    (getStopwords : Except String (List Str)) (text : Str)
    (hz : ((analyzeMoralFoundations tokenize getStopwords text).map Prod.snd).sum = 0) :
    (analyzeFull tokenize getStopwords text).moral_foundations = [] := by
  rw [analyzeFull_moral_foundations, hz]
  rw [if_neg (lt_irrefl 0)]

theorem sum_map_zero_q {α : Type} (l : List α) : (l.map (fun _ => (0 : ℚ))).sum = 0 := by
  induction l with
  | nil => simp
  | cons a l ih => simp [ih]

/-- C7: the moral-foundations profiler never lets an internal failure escape
to `analyze`: when the tokenizer/stopword machinery fails, the `except`
branch turns the failure into an all-zero profile, and `analyze` still
completes with a full result (whose published moral profile is then the
empty mapping, since the zero profile is not normalized). -/
theorem claim_C7_profiler_never_raises (tokenize : Str → Except String (List Str))
    (getStopwords : Except String (List Str)) (text : Str) (e : String)
    (he : moralRawCounts tokenize getStopwords text = .error e) :
    analyzeMoralFoundations tokenize getStopwords text =
      moralFoundations.map (fun p => (p.1, (0 : ℚ))) ∧
    (¬ isShortText text → ∃ r : FullResult,
      analyze tokenize getStopwords text = .full r ∧ r.moral_foundations = []) := by
  have h1 : analyzeMoralFoundations tokenize getStopwords text =
      moralFoundations.map (fun p => (p.1, (0 : ℚ))) := by
    unfold analyzeMoralFoundations
    rw [he]
  refine ⟨h1, fun h => ⟨analyzeFull tokenize getStopwords text,
    analyze_eq_full tokenize getStopwords text h, ?_⟩⟩
  apply moral_foundations_empty_of_zero
  rw [h1, List.map_map]
  exact sum_map_zero_q moralFoundations

/-- The always-failing tokenizer used to witness C7. -/
def errTokenize : Str → Except String (List Str) :=
  fun _ => .error "punkt tokenizer unavailable"

/-- Witness for C7: a failing tokenizer on a concrete 50-character input. -/
theorem claim_C7_witness :
    analyzeMoralFoundations errTokenize fallbackStopwords
        "yyyyyyyyyyyyyyyyyyyyyyyyyyyyyyyyyyyyyyyyyyyyyyyyyy".data =
      moralFoundations.map (fun p => (p.1, (0 : ℚ))) ∧
    (¬ isShortText "yyyyyyyyyyyyyyyyyyyyyyyyyyyyyyyyyyyyyyyyyyyyyyyyyy".data →
      ∃ r : FullResult,
        analyze errTokenize fallbackStopwords
          "yyyyyyyyyyyyyyyyyyyyyyyyyyyyyyyyyyyyyyyyyyyyyyyyyy".data = .full r ∧
        r.moral_foundations = []) :=
  claim_C7_profiler_never_raises errTokenize fallbackStopwords
    "yyyyyyyyyyyyyyyyyyyyyyyyyyyyyyyyyyyyyyyyyyyyyyyyyy".data
    "punkt tokenizer unavailable" rfl

/-- C6 (amended): past the short-text check, when the raw moral-foundation
counts sum to a positive total the published `moral_foundations` mapping
carries each foundation's count divided by that total and its values sum to
exactly 1; when the counts sum to zero the published mapping is the empty
mapping (no foundation entries at all), not a mapping of explicit zeros. -/
theorem claim_C6_moral_profile_amended (tokenize : Str → Except String (List Str))
    (getStopwords : Except String (List Str)) (text : Str) (h : ¬ isShortText text)
    (counts : List (String × ℕ))
    (hc : moralRawCounts tokenize getStopwords text = .ok counts) :
    ∃ r : FullResult, analyze tokenize getStopwords text = .full r ∧
      (0 < (counts.map Prod.snd).sum →
        r.moral_foundations =
          counts.map (fun p => (p.1, (p.2 : ℚ) / ((counts.map Prod.snd).sum : ℚ))) ∧
        (r.moral_foundations.map Prod.snd).sum = 1) ∧
      ((counts.map Prod.snd).sum = 0 → r.moral_foundations = []) := by
  have hm : analyzeMoralFoundations tokenize getStopwords text =
      (if 0 < (counts.map Prod.snd).sum then
        counts.map (fun p => (p.1, (p.2 : ℚ) / ((counts.map Prod.snd).sum : ℚ)))
      else counts.map (fun p => (p.1, (p.2 : ℚ)))) := by
    unfold analyzeMoralFoundations
    rw [hc]
  refine ⟨analyzeFull tokenize getStopwords text,
    analyze_eq_full tokenize getStopwords text h, ?_, ?_⟩
  · intro hpos
    have hSne : ((counts.map Prod.snd).sum : ℚ) ≠ 0 := by
      exact_mod_cast Nat.pos_iff_ne_zero.mp hpos
    have hm1 : analyzeMoralFoundations tokenize getStopwords text =
        counts.map (fun p => (p.1, (p.2 : ℚ) / ((counts.map Prod.snd).sum : ℚ))) := by
      rw [hm, if_pos hpos]
    have hsum1 : ((counts.map
        (fun p => (p.1, (p.2 : ℚ) / ((counts.map Prod.snd).sum : ℚ)))).map
          Prod.snd).sum = 1 := by
      rw [map_snd_pair counts (fun p => (p.2 : ℚ) / ((counts.map Prod.snd).sum : ℚ))]
      rw [sum_snd_div counts ((counts.map Prod.snd).sum : ℚ)]
      exact div_self hSne
    have htot : ((analyzeMoralFoundations tokenize getStopwords text).map
        Prod.snd).sum = 1 := by
      rw [hm1]
      exact hsum1
    have hprof : (analyzeFull tokenize getStopwords text).moral_foundations =
        counts.map (fun p => (p.1, (p.2 : ℚ) / ((counts.map Prod.snd).sum : ℚ))) := by
      rw [analyzeFull_moral_foundations, htot, if_pos (by norm_num : (0 : ℚ) < 1)]
      rw [hm1, List.map_map]
      simp only [Function.comp, div_one, Prod.mk.eta]
      rfl
    refine ⟨hprof, ?_⟩
    rw [hprof]
    exact hsum1
  · intro hzero
    have hm0 : analyzeMoralFoundations tokenize getStopwords text =
        counts.map (fun p => (p.1, (p.2 : ℚ))) := by
      rw [hm, if_neg (by rw [hzero]; exact lt_irrefl 0)]
    apply moral_foundations_empty_of_zero
    rw [hm0, map_snd_pair counts (fun p => (p.2 : ℚ)), sum_cast_snd, hzero]
    norm_num

/-- The concrete 50-character input for the C6 counterexample: it passes the
length check but contains no moral-foundation term at all. -/
def cexText : Str := "xxxxxxxxxxxxxxxxxxxxxxxxxxxxxxxxxxxxxxxxxxxxxxxxxx".data

/-- Counterexample for C6 as stated: on `cexText` every raw moral count is 0,
yet the returned `moral_foundations` mapping is empty, so it is NOT true that
every foundation's proportion appears in the result with value 0 — the
`"care"` entry (like every other) is absent, not zero. -/
theorem claim_C6_counterexample :
    ¬ isShortText cexText ∧
    moralRawCounts fallbackTokenize fallbackStopwords cexText =
      .ok [("care", 0), ("fairness", 0), ("loyalty", 0), ("authority", 0),
           ("sanctity", 0), ("liberty", 0)] ∧
    ∃ r : FullResult, analyze fallbackTokenize fallbackStopwords cexText = .full r ∧
      r.moral_foundations = [] ∧
      ¬ (∀ f ∈ moralFoundations.map Prod.fst,
          r.moral_foundations.lookup f = some 0) := by
  have hshort : ¬ isShortText cexText := by decide
  have hraw : moralRawCounts fallbackTokenize fallbackStopwords cexText =
      .ok [("care", 0), ("fairness", 0), ("loyalty", 0), ("authority", 0),
           ("sanctity", 0), ("liberty", 0)] := rfl
  have hmz : analyzeMoralFoundations fallbackTokenize fallbackStopwords cexText =
      [("care", (0 : ℚ)), ("fairness", 0), ("loyalty", 0), ("authority", 0),
       ("sanctity", 0), ("liberty", 0)] := by
    unfold analyzeMoralFoundations
    rw [hraw]
    norm_num
  have hsum0 : ((analyzeMoralFoundations fallbackTokenize fallbackStopwords
      cexText).map Prod.snd).sum = 0 := by
    rw [hmz]
    norm_num
  have hmf : (analyzeFull fallbackTokenize fallbackStopwords
      cexText).moral_foundations = [] :=
    moral_foundations_empty_of_zero fallbackTokenize fallbackStopwords cexText hsum0
  refine ⟨hshort, hraw, analyzeFull fallbackTokenize fallbackStopwords cexText,
    analyze_eq_full fallbackTokenize fallbackStopwords cexText hshort, hmf, ?_⟩
  intro hall
  have h1 := hall "care" (by decide)
  rw [hmf] at h1
  exact Option.noConfusion h1

/-- Witness for the amended C6 at a concrete 52-character input containing
the moral-foundation terms `freedom` (liberty, twice) and `justice`
(fairness, once). -/
theorem claim_C6_witness :
    ∃ r : FullResult,
      analyze fallbackTokenize fallbackStopwords
        "freedom freedom justice economy economy economy zzzz".data = .full r ∧
      (0 < (([("care", 0), ("fairness", 1), ("loyalty", 0), ("authority", 0),
              ("sanctity", 0), ("liberty", 2)] : List (String × ℕ)).map Prod.snd).sum →
        r.moral_foundations =
          ([("care", 0), ("fairness", 1), ("loyalty", 0), ("authority", 0),
            ("sanctity", 0), ("liberty", 2)] : List (String × ℕ)).map
            (fun p => (p.1, (p.2 : ℚ) /
              ((([("care", 0), ("fairness", 1), ("loyalty", 0), ("authority", 0),
                  ("sanctity", 0), ("liberty", 2)] : List (String × ℕ)).map
                Prod.snd).sum : ℚ))) ∧
        (r.moral_foundations.map Prod.snd).sum = 1) ∧
      ((([("care", 0), ("fairness", 1), ("loyalty", 0), ("authority", 0),
          ("sanctity", 0), ("liberty", 2)] : List (String × ℕ)).map Prod.snd).sum = 0 →
        r.moral_foundations = []) :=
  claim_C6_moral_profile_amended fallbackTokenize fallbackStopwords
    "freedom freedom justice economy economy economy zzzz".data (by decide)
    [("care", 0), ("fairness", 1), ("loyalty", 0), ("authority", 0),
     ("sanctity", 0), ("liberty", 2)] rfl

/-- The moral-foundations sentence optionally appended by `analyze`
(lines 523-528), as the string it contributes (empty when the sentence is
not appended). -/
def moralSegment (mp : List (String × ℚ)) : String :=
  match maxByValue mp with
  | some kv =>
    if (3/10 : ℚ) < kv.2 then
      "The content emphasizes the moral foundation of " ++ kv.1 ++ ". "
    else ""
  | none => ""

/-- The low-confidence sentence optionally appended by `analyze`
(lines 530-532), as the string it contributes (empty when the sentence is
not appended). -/
def confSegment (conf : ℚ) : String :=
  if conf < (1/2 : ℚ) then
    "Note that this analysis has low confidence due to limited political indicators in the text."
  else ""

theorem buildExplanation_eq (bc : String) (tb : List (String × TopicBias))
    (mp : List (String × ℚ)) (conf : ℚ) :
    buildExplanation bc tb mp conf =
      "This content appears to be " ++ lowerString bc ++ ", " ++
      ((if significantTopics tb = [] then ""
        else "with " ++ String.intercalate ", " (significantTopics tb) ++ ". ") ++
       (moralSegment mp ++ confSegment conf)) := by
  unfold buildExplanation moralSegment confSegment
  dsimp only
  rcases hmax : maxByValue mp with _ | kv
  · dsimp only
    by_cases hconf : conf < (1/2 : ℚ)
    · rw [if_pos hconf]
      by_cases hsig : significantTopics tb = []
      · rw [if_neg (not_not_intro hsig), if_pos hsig]
        rw [if_pos hconf]
        simp [String.append_assoc]
      · rw [if_pos hsig, if_neg hsig]
        rw [if_pos hconf]
        simp [String.append_assoc]
    · rw [if_neg hconf]
      by_cases hsig : significantTopics tb = []
      · rw [if_neg (not_not_intro hsig), if_pos hsig]
        rw [if_neg hconf]
        simp [String.append_assoc]
      · rw [if_pos hsig, if_neg hsig]
        rw [if_neg hconf]
        simp [String.append_assoc]
  · dsimp only
    by_cases hv : (3/10 : ℚ) < kv.2
    · rw [if_pos hv]
      by_cases hconf : conf < (1/2 : ℚ)
      · rw [if_pos hconf]
        by_cases hsig : significantTopics tb = []
        · rw [if_neg (not_not_intro hsig), if_pos hsig]
          rw [if_pos hv]
          rw [if_pos hconf]
          simp [String.append_assoc]
        · rw [if_pos hsig, if_neg hsig]
          rw [if_pos hv]
          rw [if_pos hconf]
          simp [String.append_assoc]
      · rw [if_neg hconf]
        by_cases hsig : significantTopics tb = []
        · rw [if_neg (not_not_intro hsig), if_pos hsig]
          rw [if_pos hv]
          rw [if_neg hconf]
          simp [String.append_assoc]
        · rw [if_pos hsig, if_neg hsig]
          rw [if_pos hv]
          rw [if_neg hconf]
          simp [String.append_assoc]
    · rw [if_neg hv]
      by_cases hconf : conf < (1/2 : ℚ)
      · rw [if_pos hconf]
        by_cases hsig : significantTopics tb = []
        · rw [if_neg (not_not_intro hsig), if_pos hsig]
          rw [if_neg hv]
          rw [if_pos hconf]
          simp [String.append_assoc]
        · rw [if_pos hsig, if_neg hsig]
          rw [if_neg hv]
          rw [if_pos hconf]
          simp [String.append_assoc]
      · rw [if_neg hconf]
        by_cases hsig : significantTopics tb = []
        · rw [if_neg (not_not_intro hsig), if_pos hsig]
          rw [if_neg hv]
          rw [if_neg hconf]
          simp [String.append_assoc]
        · rw [if_pos hsig, if_neg hsig]
          rw [if_neg hv]
          rw [if_neg hconf]
          simp [String.append_assoc]

/-- C8: the explanation's topical clause list names one axis per
`topic_analysis` entry with `left_terms + right_terms > 2` (in order), each
clause labelled right-leaning exactly when that axis's score is positive and
left-leaning otherwise (including a score of exactly 0); the clauses are
joined with `", "`, prefixed by `"with "` and suffixed by `". "` inside the
assembled explanation (which is stripped as a whole at the end). -/
theorem claim_C8_explanation_topics (tokenize : Str → Except String (List Str))
    (getStopwords : Except String (List Str)) (text : Str) (h : ¬ isShortText text) :
    ∃ r : FullResult, analyze tokenize getStopwords text = .full r ∧
      significantTopics r.topic_analysis =
        (r.topic_analysis.filter (fun p => 2 < p.2.left_terms + p.2.right_terms)).map
          (fun p => replaceUnderscore p.1 ++ " is " ++
            (if 0 < p.2.score then "right-leaning" else "left-leaning")) ∧
      (∀ tb : TopicBias, (0 < tb.score → leaning tb = "right-leaning") ∧
        (tb.score ≤ 0 → leaning tb = "left-leaning")) ∧
      ∃ tail : String,
        r.explanation =
          stripString ("This content appears to be " ++
            lowerString r.interpretation ++ ", " ++
            ((if significantTopics r.topic_analysis = [] then ""
              else "with " ++
                String.intercalate ", " (significantTopics r.topic_analysis) ++ ". ") ++
              tail)) := by
  refine ⟨analyzeFull tokenize getStopwords text,
    analyze_eq_full tokenize getStopwords text h, rfl, ?_, ?_⟩
  · intro tb
    constructor
    · intro hpos
      unfold leaning
      rw [if_pos hpos]
    · intro hnp
      unfold leaning
      rw [if_neg (not_lt.mpr hnp)]
  · exact ⟨moralSegment (analyzeFull tokenize getStopwords text).moral_foundations ++
      confSegment (analyzeFull tokenize getStopwords text).confidence,
      by rw [analyzeFull_explanation, buildExplanation_eq]⟩

/-- Witness for C8 at a concrete 55-character input. -/
theorem claim_C8_witness :
    ∃ r : FullResult,
      analyze fallbackTokenize fallbackStopwords
        "the committee met for hours and then adjourned quietly.".data = .full r ∧
      significantTopics r.topic_analysis =
        (r.topic_analysis.filter (fun p => 2 < p.2.left_terms + p.2.right_terms)).map
          (fun p => replaceUnderscore p.1 ++ " is " ++
            (if 0 < p.2.score then "right-leaning" else "left-leaning")) ∧
      (∀ tb : TopicBias, (0 < tb.score → leaning tb = "right-leaning") ∧
        (tb.score ≤ 0 → leaning tb = "left-leaning")) ∧
      ∃ tail : String,
        r.explanation =
          stripString ("This content appears to be " ++
            lowerString r.interpretation ++ ", " ++
            ((if significantTopics r.topic_analysis = [] then ""
              else "with " ++
                String.intercalate ", " (significantTopics r.topic_analysis) ++ ". ") ++
              tail)) :=
  claim_C8_explanation_topics fallbackTokenize fallbackStopwords
    "the committee met for hours and then adjourned quietly.".data (by decide)

theorem sum_map_count_split (terms : List String) (t : String) (f : String → ℕ) :
    (terms.map f).sum =
      terms.count t * f t + ((terms.filter (fun u => u != t)).map f).sum := by
  induction terms with
  | nil => simp
  | cons a l ih =>
    by_cases hat : a = t
    · subst hat
      rw [List.filter_cons]
      simp only [bne_self_eq_false, Bool.false_eq_true, if_false, List.map_cons,
        List.sum_cons, List.count_cons_self]
      rw [ih]
      ring
    · have hta : t ≠ a := fun hh => hat hh.symm
      rw [List.filter_cons]
      simp only [List.map_cons, List.sum_cons, List.count_cons_of_ne hta,
        bne_iff_ne, ne_eq, hat, not_false_eq_true, if_true]
      rw [ih]
      ring

/-- C10: a term listed `k` times inside one axis's (non-deduplicated) list
contributes `k` to that axis's count for each of its non-overlapping
occurrences in the text: the axis count decomposes as
`count-in-list * per-term occurrences` plus the other terms' contributions;
in the shipped data, `economy_left` lists `"economic justice"` twice and
`social_right` lists `"family values"` twice, so the text
`"economic justice"` (one occurrence) scores 2 on `economy_left`. -/
theorem claim_C10_duplicate_terms :
    (∀ (text : Str) (terms : List String) (t : String),
      countLexiconCategory terms text =
        terms.count t * countTerm t.data text +
          ((terms.filter (fun u => u != t)).map (fun u => countTerm u.data text)).sum) ∧
    economy_left.count "economic justice" = 2 ∧
    social_right.count "family values" = 2 ∧
    countTerm "economic justice".data "economic justice".data = 1 ∧
    countLexiconCategory economy_left "economic justice".data =
      2 * countTerm "economic justice".data "economic justice".data := by
  refine ⟨?_, by decide, by decide, by decide, by decide⟩
  intro text terms t
  unfold countLexiconCategory
  exact sum_map_count_split terms t (fun u => countTerm u.data text)

end BiasNews
